import Mathlib

/-!
Shallow embedding of `preflyt-check`, a zero-dependency Node CLI client for a
remote security-scanning service (src/bin/preflyt-check.js), together with
theorems settling the frozen claims about it.

Modelling conventions:
* JS objects become Lean structures; JS strings are Lean `String`s; JS numbers
  that the code only treats as integers (`total_issues`, category counts,
  `scan_time_seconds`) are `Nat`.
* Node built-ins that are not part of this repository are modelled at their
  interface: URL parsing, the two network calls and `Math.random` become oracle
  parameters of the `main` embedding, and `JSON.stringify`/`JSON.parse` are
  modelled on the JSON value tree (`Json` below).
* JS truthiness of `x || y` on strings/numbers is made explicit by the
  `jsOr...` helpers.
* `console.log` output is collected as a `List String`, one entry per call.
-/

/-- A single finding as read by the CLI: only `severity` and `title` are ever
accessed (src/bin/preflyt-check.js uses `f.severity` and `f.title`). -/
structure Finding where
  severity : String
  title : String
deriving DecidableEq, Repr

/-- A category summary entry, `cats[key] = \x7b status, count \x7d`. -/
structure CategoryInfo where
  status : String
  count : Nat
deriving DecidableEq, Repr

/-- The scan result object deserialized from the remote response.  Fields are
exactly those the CLI reads: `status`, `total_issues`, `findings`,
`categories`, `scan_time_seconds`, `message`, `url`.  `message := none` models
an absent/null field; `categories` is an association list preserving the JSON
object's key order. -/
structure ScanResult where
  status : String
  total_issues : Nat
  findings : List Finding
  categories : List (String × CategoryInfo)
  scan_time_seconds : Nat
  message : Option String
  url : String
deriving DecidableEq, Repr

/-- Parsed CLI flags (the `args` object built by `parseArgs`). -/
structure Args where
  url : Option String
  key : Option String
  fail : Bool
  failOn : String
  quiet : Bool
  json : Bool
  share : Bool
  timeout : Nat
  help : Bool
deriving DecidableEq, Repr

/-- The body of a successful report-creation response; `url = ""` models a
missing/empty (falsy) `report.url`. -/
structure Report where
  url : String
deriving DecidableEq, Repr

/-- `SEVERITY_RANK = \x7b critical: 4, high: 3, medium: 2, low: 1, info: 0 \x7d`. -/
def SEVERITY_RANK : List (String × Nat) :=
  [ ("critical", 4), ("high", 3), ("medium", 2), ("low", 1), ("info", 0) ]

/-- JS `SEVERITY_RANK[sev] || 0`: a missing key gives `undefined` (falsy) and
the present value `0` (for `info`) is also falsy, so both fall back to `0`;
hence this is plain lookup-with-default-0. -/
def rankOf (sev : String) : Nat :=
  (SEVERITY_RANK.lookup sev).getD 0

/-- JS `x || d` on an optional number: `undefined` and `0` are falsy. -/
def jsOrNat (x : Option Nat) (d : Nat) : Nat :=
  match x with
  | some n => if n = 0 then d else n
  | none => d

/-- JS `x || d` on an optional string: `null`/`undefined` and `""` are falsy. -/
def jsOrStr (x : Option String) (d : String) : String :=
  match x with
  | some s => if s = "" then d else s
  | none => d

/-- Embedding of `shouldFail(data, args)` (src/bin/preflyt-check.js:382-399):
exit-1 predicate.  `threshold` is `SEVERITY_RANK[args.failOn] ||
SEVERITY_RANK.high` (so rank 0 or a missing key falls back to 3), and the
`for` loop returns true iff some finding's rank reaches the threshold. -/
def shouldFail (data : ScanResult) (args : Args) : Bool :=
  if !args.fail then false
  else if data.status ≠ "issues_found" then false
  else
    let threshold := jsOrNat (SEVERITY_RANK.lookup args.failOn) 3
    data.findings.any (fun f => threshold ≤ rankOf f.severity)

/-- Claim C1: for `failOn` one of the CLI-supported values `high`, `medium`,
`low`, `shouldFail` is true iff the fail flag is set, the status is exactly
`issues_found`, and some finding's severity rank (critical=4, high=3,
medium=2, low=1, info=0, unknown=0) is at least the threshold's rank. -/
theorem shouldFail_characterization (data : ScanResult) (args : Args)
    (h : args.failOn = "high" ∨ args.failOn = "medium" ∨ args.failOn = "low") :
    shouldFail data args = true ↔
      args.fail = true ∧ data.status = "issues_found" ∧
        ∃ f ∈ data.findings, rankOf args.failOn ≤ rankOf f.severity := by
  have hth : jsOrNat (SEVERITY_RANK.lookup args.failOn) 3 = rankOf args.failOn := by
    rcases h with h | h | h <;> rw [h] <;> rfl
  unfold shouldFail
  rcases hfail : args.fail with _ | _
  · simp
  · rcases hst : decide (data.status = "issues_found") with _ | _
    · simp_all
    · have hst' : data.status = "issues_found" := of_decide_eq_true hst
      simp only [Bool.not_true, Bool.false_eq_true, if_false, hst', ne_eq,
        not_true_eq_false, if_neg, hth, List.any_eq_true, decide_eq_true_eq]
      simp [hst']

/-- Witness for C1 at a concrete input: `--fail --fail-on medium` with one
`medium` finding under status `issues_found` fails. -/
theorem shouldFail_characterization_witness :
    shouldFail
      ⟨ "issues_found", 1, [⟨ "medium", "t" ⟩], [], 0, none, "u" ⟩
      ⟨ some "u", none, true, "medium", false, false, false, 60, false ⟩ = true := by
  exact (shouldFail_characterization _ _ (Or.inr (Or.inl rfl))).mpr
    ⟨ rfl, rfl, ⟨ "medium", "t" ⟩, by decide, by decide ⟩

/-- Claim C10: a `--fail-on` value that is `info` (rank 0, falsy) or absent
from the rank table makes `shouldFail` behave exactly as with threshold
`high`. -/
theorem shouldFail_fallback_high (data : ScanResult) (args : Args)
    (h : SEVERITY_RANK.lookup args.failOn = none ∨ args.failOn = "info") :
    shouldFail data args = shouldFail data { args with failOn := "high" } := by
  have hth : jsOrNat (SEVERITY_RANK.lookup args.failOn) 3 = 3 := by
    rcases h with h | h
    · rw [h]
      rfl
    · rw [h]
      decide
  unfold shouldFail
  simp only [hth]
  rfl

/-- Witness for C10: with `--fail --fail-on info` and findings all of severity
`info`, `shouldFail` is false (the fallback threshold is `high`). -/
theorem shouldFail_fallback_high_witness :
    (shouldFail
        ⟨ "issues_found", 2, [⟨ "info", "a" ⟩, ⟨ "info", "b" ⟩], [], 0, none, "u" ⟩
        ⟨ some "u", none, true, "info", false, false, false, 60, false ⟩
      = shouldFail
        ⟨ "issues_found", 2, [⟨ "info", "a" ⟩, ⟨ "info", "b" ⟩], [], 0, none, "u" ⟩
        ⟨ some "u", none, true, "high", false, false, false, 60, false ⟩) ∧
    shouldFail
        ⟨ "issues_found", 2, [⟨ "info", "a" ⟩, ⟨ "info", "b" ⟩], [], 0, none, "u" ⟩
        ⟨ some "u", none, true, "info", false, false, false, 60, false ⟩ = false := by
  refine ⟨ shouldFail_fallback_high _ _ (Or.inr rfl), by decide ⟩

/-- `MESSAGES_CLEAN` (src/bin/preflyt-check.js:19-24). -/
def MESSAGES_CLEAN : List String :=
  [ "Your deployment is cleaner than my git history. Ship it.",
    "Zero issues. Either you\x27re cracked or your app does nothing. Either way, congrats.",
    "We checked everything. You\x27re suspiciously secure.",
    "Nothing found. You may now mass-reply \x27skill issue\x27 to everyone who gets hacked." ]

/-- `MESSAGES_FEW` (src/bin/preflyt-check.js:26-29). -/
def MESSAGES_FEW : List String :=
  [ "99% there. Just a couple things standing between you and a clean conscience.",
    "Almost perfect. Almost." ]

/-- `MESSAGES_SOME` (src/bin/preflyt-check.js:31-35). -/
def MESSAGES_SOME : List String :=
  [ "Not bad, not great. Your app is the C+ student of security.",
    "A few open doors. Nothing catastrophic, but your .env file is sweating.",
    "Found some things. The kind that make you say \x27I\x27ll fix it later\x27 and then never do. Fix them now." ]

/-- `MESSAGES_MANY` (src/bin/preflyt-check.js:37-41). -/
def MESSAGES_MANY : List String :=
  [ "Your deployment is giving \x27I\x27ll add security later.\x27 It\x27s later.",
    "We found more issues than you have users. Let\x27s fix that ratio.",
    "This is why we exist. Deep breaths. Start with the red ones." ]

/-- `MESSAGES_HIGH` (src/bin/preflyt-check.js:43-46). -/
def MESSAGES_HIGH : List String :=
  [ "Someone left the keys in the ignition. On a highway. At night.",
    "Your database said hi. From the public internet. Fix this immediately." ]

/-- `pickRandom(arr)` = `arr[Math.floor(Math.random() * arr.length)]`.  The
random draw is injected as a natural number `k`; `Math.floor(Math.random() *
n)` is a uniform index in `[0, n)`, modelled as `k % n`.  The `""` default is
unreachable for the nonempty pools this is applied to. -/
def pickRandom (arr : List String) (k : Nat) : String :=
  arr.getD (k % arr.length) ""

/-- `pickMessage(data)` (src/bin/preflyt-check.js:52-65) with the randomness
source `k` injected.  `var count = data.total_issues || 0` is the identity
here because `total_issues` is a `Nat`. -/
def pickMessage (data : ScanResult) (k : Nat) : String :=
  let hasHigh := data.findings.any (fun f =>
    f.severity == "high" || f.severity == "critical")
  if hasHigh then pickRandom MESSAGES_HIGH k
  else
    let count := data.total_issues
    if count = 0 then pickRandom MESSAGES_CLEAN k
    else if count ≤ 2 then pickRandom MESSAGES_FEW k
    else if count ≤ 5 then pickRandom MESSAGES_SOME k
    else pickRandom MESSAGES_MANY k

/-- An element drawn by `pickRandom` from a nonempty pool is in that pool. -/
theorem pickRandom_mem (arr : List String) (k : Nat) (h : arr ≠ []) :
    pickRandom arr k ∈ arr := by
  unfold pickRandom
  have hlen : 0 < arr.length := List.length_pos.mpr h
  have hk : k % arr.length < arr.length := Nat.mod_lt _ hlen
  rw [List.getD_eq_getElem?_getD, List.getElem?_eq_getElem hk]
  exact List.getElem_mem hk

/-- The clean-message pool is nonempty. -/
theorem MESSAGES_CLEAN_ne : MESSAGES_CLEAN ≠ [] := by decide

/-- The few-issues message pool is nonempty. -/
theorem MESSAGES_FEW_ne : MESSAGES_FEW ≠ [] := by decide

/-- The some-issues message pool is nonempty. -/
theorem MESSAGES_SOME_ne : MESSAGES_SOME ≠ [] := by decide

/-- The many-issues message pool is nonempty. -/
theorem MESSAGES_MANY_ne : MESSAGES_MANY ≠ [] := by decide

/-- The high-severity message pool is nonempty. -/
theorem MESSAGES_HIGH_ne : MESSAGES_HIGH ≠ [] := by decide

/-- Claim C5: `pickMessage` selects exactly one message, drawn from the pool
chosen by the priority ladder: any `high`/`critical` finding selects the
high-severity pool; otherwise `total_issues` 0 selects the clean pool, 1-2 the
few pool, 3-5 the some pool, and 6+ the many pool. -/
theorem pickMessage_ladder (data : ScanResult) (k : Nat) :
    pickMessage data k ∈
      (if data.findings.any (fun f => f.severity == "high" || f.severity == "critical")
        then MESSAGES_HIGH
        else if data.total_issues = 0 then MESSAGES_CLEAN
        else if data.total_issues ≤ 2 then MESSAGES_FEW
        else if data.total_issues ≤ 5 then MESSAGES_SOME
        else MESSAGES_MANY) := by
  simp only [pickMessage]
  split_ifs <;>
    first
      | exact pickRandom_mem _ _ MESSAGES_HIGH_ne
      | exact pickRandom_mem _ _ MESSAGES_CLEAN_ne
      | exact pickRandom_mem _ _ MESSAGES_FEW_ne
      | exact pickRandom_mem _ _ MESSAGES_SOME_ne
      | exact pickRandom_mem _ _ MESSAGES_MANY_ne

/-- One insertion step of the findings sort.  `findings.sort((a, b) =>
(SEVERITY_RANK[b.severity] || 0) - (SEVERITY_RANK[a.severity] || 0))`
(src/bin/preflyt-check.js:239-241) is a stable sort (ECMAScript
`Array.prototype.sort` is required to be stable) ordering by severity rank
descending; `a` is placed before the first element whose rank it reaches. -/
def orderedInsertDesc (a : Finding) : List Finding → List Finding
  | [] => [a]
  | b :: l =>
    if rankOf b.severity ≤ rankOf a.severity then a :: b :: l
    else b :: orderedInsertDesc a l

/-- The stable severity-descending sort applied to `data.findings` by the
full-output renderer (src/bin/preflyt-check.js:239-241). -/
def sortFindings : List Finding → List Finding
  | [] => []
  | a :: l => orderedInsertDesc a (sortFindings l)

/-- Inserting permutes: `orderedInsertDesc a l` is `a :: l` up to order. -/
theorem perm_orderedInsertDesc (a : Finding) (l : List Finding) :
    (orderedInsertDesc a l).Perm (a :: l) := by
  induction l with
  | nil => exact List.Perm.refl _
  | cons b l ih =>
    rw [orderedInsertDesc]
    split_ifs
    · exact List.Perm.refl _
    · exact (List.Perm.cons b ih).trans (List.Perm.swap a b l)

/-- The sorted findings are a permutation of the input findings. -/
theorem sortFindings_perm (l : List Finding) : (sortFindings l).Perm l := by
  induction l with
  | nil => exact List.Perm.refl _
  | cons a l ih =>
    exact (perm_orderedInsertDesc a (sortFindings l)).trans (List.Perm.cons a ih)

/-- Inserting into a rank-descending list keeps it rank-descending. -/
theorem pairwise_orderedInsertDesc (a : Finding) (l : List Finding)
    (h : l.Pairwise (fun f g => rankOf g.severity ≤ rankOf f.severity)) :
    (orderedInsertDesc a l).Pairwise
      (fun f g => rankOf g.severity ≤ rankOf f.severity) := by
  induction l with
  | nil => simp [orderedInsertDesc]
  | cons b l ih =>
    rw [List.pairwise_cons] at h
    obtain ⟨ hb, hl ⟩ := h
    by_cases hba : rankOf b.severity ≤ rankOf a.severity
    · rw [orderedInsertDesc, if_pos hba]
      refine List.Pairwise.cons ?_ (List.Pairwise.cons hb hl)
      intro x hx
      rcases List.mem_cons.mp hx with rfl | hx
      · exact hba
      · exact le_trans (hb x hx) hba
    · rw [orderedInsertDesc, if_neg hba]
      refine List.Pairwise.cons ?_ (ih hl)
      intro x hx
      rcases List.mem_cons.mp ((perm_orderedInsertDesc a l).mem_iff.mp hx) with rfl | hx'
      · exact le_of_not_le hba
      · exact hb x hx'

/-- The findings sort produces a rank-descending list. -/
theorem sortFindings_sorted (l : List Finding) :
    (sortFindings l).Pairwise (fun f g => rankOf g.severity ≤ rankOf f.severity) := by
  induction l with
  | nil => simp [sortFindings]
  | cons a l ih => exact pairwise_orderedInsertDesc a (sortFindings l) ih

/-- Stability of one insertion step, phrased through rank-level filters: the
elements skipped over by the insertion all have strictly larger rank. -/
theorem filter_orderedInsertDesc (a : Finding) (l : List Finding) (v : Nat) :
    (orderedInsertDesc a l).filter (fun f => rankOf f.severity == v)
      = if rankOf a.severity = v
          then a :: l.filter (fun f => rankOf f.severity == v)
          else l.filter (fun f => rankOf f.severity == v) := by
  induction l with
  | nil =>
    rw [orderedInsertDesc]
    by_cases hav : rankOf a.severity = v
    · have ha : (rankOf a.severity == v) = true := beq_iff_eq.mpr hav
      simp [List.filter_cons, ha, hav]
    · have ha : (rankOf a.severity == v) = false := beq_eq_false_iff_ne.mpr hav
      simp [List.filter_cons, ha, hav]
  | cons b l ih =>
    rw [orderedInsertDesc]
    by_cases hba : rankOf b.severity ≤ rankOf a.severity
    · rw [if_pos hba]
      by_cases hav : rankOf a.severity = v
      · have ha : (rankOf a.severity == v) = true := beq_iff_eq.mpr hav
        simp [List.filter_cons, ha, hav]
      · have ha : (rankOf a.severity == v) = false := beq_eq_false_iff_ne.mpr hav
        simp [List.filter_cons, ha, hav]
    · rw [if_neg hba]
      have hlt : rankOf a.severity < rankOf b.severity := lt_of_not_le hba
      by_cases hav : rankOf a.severity = v
      · have hb : (rankOf b.severity == v) = false := by
          refine beq_eq_false_iff_ne.mpr ?_
          intro hc
          rw [hav] at hlt
          omega
        simp [List.filter_cons, hb, ih, hav]
      · simp [List.filter_cons, ih, hav]

/-- Claim C6 stability core: for every rank value, the sorted findings filtered
to that rank equal the input findings filtered to that rank — equal-rank
findings keep their relative input order. -/
theorem sortFindings_stable (l : List Finding) (v : Nat) :
    (sortFindings l).filter (fun f => rankOf f.severity == v)
      = l.filter (fun f => rankOf f.severity == v) := by
  induction l with
  | nil => rfl
  | cons a l ih =>
    rw [sortFindings, filter_orderedInsertDesc]
    by_cases hav : rankOf a.severity = v
    · have ha : (rankOf a.severity == v) = true := beq_iff_eq.mpr hav
      rw [if_pos hav, ih]
      simp [List.filter_cons, ha]
    · have ha : (rankOf a.severity == v) = false := beq_eq_false_iff_ne.mpr hav
      rw [if_neg hav, ih]
      simp [List.filter_cons, ha]

/-- JSON value trees: the common interface level at which the Node built-ins
`JSON.stringify` and `JSON.parse` are modelled.  Object fields keep their
insertion order, as JS objects do. -/
inductive Json where
  | null : Json
  | str : String → Json
  | num : Nat → Json
  | arr : List Json → Json
  | obj : List (String × Json) → Json
deriving Repr

/-- JSON view of a finding, in field order `severity`, `title`. -/
def findingToJson (f : Finding) : Json :=
  Json.obj [ ("severity", Json.str f.severity), ("title", Json.str f.title) ]

/-- JSON view of a category entry, in field order `status`, `count`. -/
def categoryToJson (c : CategoryInfo) : Json :=
  Json.obj [ ("status", Json.str c.status), ("count", Json.num c.count) ]

/-- JSON view of the optional `message` field (`null` when absent). -/
def msgToJson : Option String → Json
  | none => Json.null
  | some s => Json.str s

/-- The JSON value tree of a `ScanResult` — what `JSON.stringify(data, ...)`
serializes. -/
def scanResultToJson (d : ScanResult) : Json :=
  Json.obj
    [ ("status", Json.str d.status),
      ("total_issues", Json.num d.total_issues),
      ("findings", Json.arr (d.findings.map findingToJson)),
      ("categories", Json.obj (d.categories.map (fun p => (p.1, categoryToJson p.2)))),
      ("scan_time_seconds", Json.num d.scan_time_seconds),
      ("message", msgToJson d.message),
      ("url", Json.str d.url) ]

/-- Decoder for a finding's JSON tree (the `JSON.parse` side of the model). -/
def findingFromJson : Json → Option Finding
  | Json.obj [ ("severity", Json.str s), ("title", Json.str t) ] => some ⟨ s, t ⟩
  | _ => none

/-- Decoder for a list of finding trees. -/
def decodeFindings : List Json → Option (List Finding)
  | [] => some []
  | j :: js =>
    match findingFromJson j, decodeFindings js with
    | some f, some fs => some (f :: fs)
    | _, _ => none

/-- Decoder for a category entry's JSON tree. -/
def categoryFromJson : Json → Option CategoryInfo
  | Json.obj [ ("status", Json.str s), ("count", Json.num n) ] => some ⟨ s, n ⟩
  | _ => none

/-- Decoder for the `categories` object's field list. -/
def decodeCategories : List (String × Json) → Option (List (String × CategoryInfo))
  | [] => some []
  | (k, j) :: js =>
    match categoryFromJson j, decodeCategories js with
    | some c, some cs => some ((k, c) :: cs)
    | _, _ => none

/-- Decoder for the optional `message` field. -/
def msgFromJson : Json → Option (Option String)
  | Json.null => some none
  | Json.str s => some (some s)
  | _ => none

/-- Decoder for a `ScanResult` JSON tree. -/
def scanResultFromJson : Json → Option ScanResult
  | Json.obj [ ("status", Json.str st), ("total_issues", Json.num ti),
      ("findings", Json.arr fs), ("categories", Json.obj cs),
      ("scan_time_seconds", Json.num t), ("message", m), ("url", Json.str u) ] =>
    match decodeFindings fs, decodeCategories cs, msgFromJson m with
    | some fl, some cl, some mo => some ⟨ st, ti, fl, cl, t, mo, u ⟩
    | _, _, _ => none
  | _ => none

/-- Escape of one character inside a JSON string literal. -/
def jsonEscapeChar (c : Char) : String :=
  if c = '\"' then "\\\"" else if c = '\\' then "\\\\"
  else if c = '\n' then "\\n" else if c = '\t' then "\\t"
  else if c = '\r' then "\\r" else String.singleton c

/-- JSON string-literal quoting. -/
def jsonQuote (s : String) : String :=
  "\"" ++ String.join (s.toList.map jsonEscapeChar) ++ "\""

/-- A run of `n` spaces for pretty-printing indentation. -/
def spaces (n : Nat) : String :=
  String.mk (List.replicate n ' ')

mutual
/-- `JSON.stringify(value, null, 2)`: two-space-indented pretty printing,
with `ind` the indentation of the closing bracket. -/
def prettyJson (ind : Nat) : Json → String
  | Json.null => "null"
  | Json.str s => jsonQuote s
  | Json.num n => toString n
  | Json.arr [] => "[]"
  | Json.arr (x :: xs) =>
    "[\n" ++ String.intercalate ",\n" (prettyElems (ind + 2) (x :: xs))
      ++ "\n" ++ spaces ind ++ "]"
  | Json.obj [] => "\x7b\x7d"
  | Json.obj (f :: fs) =>
    "\x7b\n" ++ String.intercalate ",\n" (prettyFields (ind + 2) (f :: fs))
      ++ "\n" ++ spaces ind ++ "\x7d"

/-- Pretty-printed array elements, one per line at indentation `ind`. -/
def prettyElems (ind : Nat) : List Json → List String
  | [] => []
  | x :: xs => (spaces ind ++ prettyJson ind x) :: prettyElems ind xs

/-- Pretty-printed object fields, one per line at indentation `ind`. -/
def prettyFields (ind : Nat) : List (String × Json) → List String
  | [] => []
  | (k, v) :: xs =>
    (spaces ind ++ jsonQuote k ++ ": " ++ prettyJson ind v) :: prettyFields ind xs
end

/-- `JSON.stringify(data, null, 2)` as printed by the JSON output mode. -/
def jsonStringify (j : Json) : String :=
  prettyJson 0 j

/-- Compact `JSON.stringify` of the fixed-shape error object printed by
`main`'s catch handler in JSON mode (src/bin/preflyt-check.js:472-476). -/
def errorJsonLine (url msg : String) : String :=
  "\x7b\"status\":\"error\",\"url\":" ++ jsonQuote url
    ++ ",\"message\":" ++ jsonQuote msg ++ "\x7d"

/-- `CATEGORY_LABELS` (src/bin/preflyt-check.js:116-120). -/
def CATEGORY_LABELS : List (String × String) :=
  [ ("file_exposure", "File & Code Exposure"),
    ("server_network", "Server & Network Security"),
    ("http_hardening", "HTTP Hardening") ]

/-- `SEVERITY_LABELS` (src/bin/preflyt-check.js:122-128). -/
def SEVERITY_LABELS : List (String × String) :=
  [ ("critical", "CRIT"), ("high", "HIGH"), ("medium", "MEDIUM"),
    ("low", "LOW"), ("info", "INFO") ]

/-- `padRight(str, len)` (src/bin/preflyt-check.js:130-133): append spaces
while shorter than `len`. -/
def padRight (s : String) (n : Nat) : String :=
  s ++ String.mk (List.replicate (n - s.length) ' ')

/-- `"(" + data.scan_time_seconds + "s)"` when truthy, else `""`
(src/bin/preflyt-check.js:168). -/
def timeStr (d : ScanResult) : String :=
  if d.scan_time_seconds ≠ 0 then "(" ++ toString d.scan_time_seconds ++ "s)" else ""

/-- JS plural suffix `(n !== 1 ? "s" : "")`. -/
def pluralS (n : Nat) : String :=
  if n ≠ 1 then "s" else ""

/-- One category summary line of the full output
(src/bin/preflyt-check.js:210-219): check when missing or clean, cross with a
count otherwise. -/
def categoryLine (cats : List (String × CategoryInfo)) (key : String) : String :=
  let label := jsOrStr (CATEGORY_LABELS.lookup key) key
  match cats.lookup key with
  | none => "  ✓ " ++ padRight label 28 ++ " - clean"
  | some cat =>
    if cat.status = "clean" then "  ✓ " ++ padRight label 28 ++ " - clean"
    else "  ✗ " ++ padRight label 28 ++ " - " ++ toString cat.count
      ++ " issue" ++ pluralS cat.count

/-- One finding line (src/bin/preflyt-check.js:243-247): fixed-width severity
label (unknown severities are upper-cased as-is) then the title. -/
def findingLine (f : Finding) : String :=
  "  " ++ padRight (jsOrStr (SEVERITY_LABELS.lookup f.severity) f.severity.toUpper) 8
    ++ f.title

/-- `if (message) console.log("  " + message)`: the optional message line
(absent for null/empty message). -/
def msgLines (message : Option String) : List String :=
  match message with
  | some m => if m = "" then [] else [ "  " ++ m ]
  | none => []

/-- The fixed upsell block printed for `limit_reached`
(src/bin/preflyt-check.js:171-183). -/
def limitReachedBlock : List String :=
  [ "",
    "  ⓘ Free scan limit reached (3/3 used).",
    "",
    "  Get unlimited CLI scans with Pro - $9.99/mo",
    "  https://preflyt.dev/pricing",
    "",
    "  Tip: Add --key YOUR_KEY for unlimited scans.",
    "",
    "  Deploy continues. No issues blocked.",
    "" ]

/-- The fixed error block printed for status `error`
(src/bin/preflyt-check.js:186-193). -/
def errorBlock (msg : String) : List String :=
  [ "",
    "  ⚠️  Scan could not complete: " ++ msg,
    "",
    "  Deploy continues. No issues blocked.",
    "" ]

/-- The three category summary lines, in the fixed display order
`file_exposure`, `server_network`, `http_hardening`. -/
def categoryLines (cats : List (String × CategoryInfo)) : List String :=
  [ categoryLine cats "file_exposure",
    categoryLine cats "server_network",
    categoryLine cats "http_hardening" ]

/-- The `Details:` line with the report URL or the default public URL
(src/bin/preflyt-check.js:226-227 and 252-253). -/
def detailsLine (reportUrl : Option String) (d : ScanResult) : String :=
  "  Details: " ++ jsOrStr reportUrl "https://preflyt.dev" ++ "  " ++ timeStr d

/-- Embedding of `printResults(data, args, message, reportUrl)`
(src/bin/preflyt-check.js:161-255).  Returns the `console.log` lines and the
post-call `data` object: the full-output issues branch sorts `data.findings`
in place (`findings.sort(...)` on line 239 aliases `data.findings`), every
other branch leaves `data` untouched. -/
def printResults (data : ScanResult) (args : Args) (message : Option String)
    (reportUrl : Option String) : List String × ScanResult :=
  if args.json then ([ jsonStringify (scanResultToJson data) ], data)
  else if data.status = "limit_reached" then (limitReachedBlock, data)
  else if data.status = "error" then
    (errorBlock (jsOrStr data.message "unknown error"), data)
  else if args.quiet then
    (if data.status = "clean"
      then [ "  ✅ All clear. " ++ timeStr data ]
      else [ "  ⚠️  " ++ toString data.total_issues ++ " issue"
              ++ pluralS data.total_issues ++ " found. " ++ timeStr data ],
     data)
  else if data.status = "clean" then
    (([ "" ] ++ categoryLines data.categories ++ [ "" ])
      ++ msgLines message
      ++ [ "", detailsLine reportUrl data, "" ],
     data)
  else
    (([ "" ] ++ categoryLines data.categories
      ++ [ "", "  ⚠️  " ++ toString data.total_issues ++ " issue"
            ++ pluralS data.total_issues ++ " found:", "" ])
      ++ (sortFindings data.findings).map findingLine
      ++ ([ "" ] ++ msgLines message ++ [ "", detailsLine reportUrl data, "" ]),
     { data with findings := sortFindings data.findings })

/-- Decoding round-trip for the findings array. -/
theorem decodeFindings_map (l : List Finding) :
    decodeFindings (l.map findingToJson) = some l := by
  induction l with
  | nil => rfl
  | cons f fs ih => simp [findingToJson, findingFromJson, decodeFindings, ih]

/-- Decoding round-trip for the categories object. -/
theorem decodeCategories_map (l : List (String × CategoryInfo)) :
    decodeCategories (l.map (fun p => (p.1, categoryToJson p.2))) = some l := by
  induction l with
  | nil => rfl
  | cons c cs ih =>
    obtain ⟨ k, ci ⟩ := c
    have h1 : categoryFromJson (categoryToJson ci) = some ci := rfl
    simp [decodeCategories, h1, ih]

/-- Serializing a `ScanResult` and parsing it back is the identity. -/
theorem scanResultFromJson_toJson (d : ScanResult) :
    scanResultFromJson (scanResultToJson d) = some d := by
  obtain ⟨ st, ti, fs, cs, t, msg, u ⟩ := d
  cases msg <;>
    simp [scanResultToJson, scanResultFromJson, msgToJson, msgFromJson,
      decodeFindings_map, decodeCategories_map]

/-- Claim C7: in JSON mode the output is exactly the pretty-printed
serialization of the raw result — for every status, with no reordering, no
injected message and no mutation — parsing the serialized tree back yields the
original `ScanResult`, and in particular the `limit_reached` upsell block is
not printed. -/
theorem printResults_json_mode (d : ScanResult) (a : Args) (m r : Option String)
    (hj : a.json = true) :
    (printResults d a m r).1 = [ jsonStringify (scanResultToJson d) ]
    ∧ (printResults d a m r).2 = d
    ∧ scanResultFromJson (scanResultToJson d) = some d
    ∧ (printResults d a m r).1 ≠ limitReachedBlock := by
  have h1 : printResults d a m r = ([ jsonStringify (scanResultToJson d) ], d) := by
    simp [printResults, hj]
  refine ⟨ by rw [h1], by rw [h1], scanResultFromJson_toJson d, ?_ ⟩
  rw [h1]
  intro hcon
  have hlen := congrArg List.length hcon
  simp [limitReachedBlock] at hlen

/-- Witness for C7: `--json` with a concrete `limit_reached` result. -/
theorem printResults_json_mode_witness :
    (printResults ⟨ "limit_reached", 0, [], [], 0, none, "u" ⟩
        ⟨ some "u", none, false, "high", false, true, false, 60, false ⟩ none none).1
      = [ jsonStringify (scanResultToJson ⟨ "limit_reached", 0, [], [], 0, none, "u" ⟩) ]
    ∧ (printResults ⟨ "limit_reached", 0, [], [], 0, none, "u" ⟩
        ⟨ some "u", none, false, "high", false, true, false, 60, false ⟩ none none).2
      = ⟨ "limit_reached", 0, [], [], 0, none, "u" ⟩
    ∧ scanResultFromJson (scanResultToJson ⟨ "limit_reached", 0, [], [], 0, none, "u" ⟩)
      = some ⟨ "limit_reached", 0, [], [], 0, none, "u" ⟩
    ∧ (printResults ⟨ "limit_reached", 0, [], [], 0, none, "u" ⟩
        ⟨ some "u", none, false, "high", false, true, false, 60, false ⟩ none none).1
      ≠ limitReachedBlock :=
  printResults_json_mode _ _ none none rfl

/-- Counterexample to claim C4 as stated: rendering is not mutation-free.  In
full mode with out-of-order findings, `printResults` reorders
`data.findings` in place (the in-place `findings.sort` on line 239), so the
post-call result differs from the pre-call result. -/
theorem printResults_mutates_findings :
    (printResults
        ⟨ "issues_found", 2, [ ⟨ "low", "a" ⟩, ⟨ "high", "b" ⟩ ], [], 0, none, "u" ⟩
        ⟨ some "u", none, false, "high", false, false, false, 60, false ⟩
        none none).2
      ≠ ⟨ "issues_found", 2, [ ⟨ "low", "a" ⟩, ⟨ "high", "b" ⟩ ], [], 0, none, "u" ⟩ := by
  decide

/-- Claim C4 as amended: `printResults` leaves the `ScanResult` unchanged in
JSON and quiet modes and for the statuses `limit_reached`, `error` and
`clean`; in full mode with any other status (`issues_found` for well-formed
results) it replaces the findings array in place with its stable
severity-descending sort — a permutation — and leaves every other field
unchanged. -/
theorem printResults_frame (d : ScanResult) (a : Args) (m r : Option String) :
    ((printResults d a m r).2
      = if a.json = false ∧ a.quiet = false ∧ d.status ≠ "limit_reached"
            ∧ d.status ≠ "error" ∧ d.status ≠ "clean"
          then { d with findings := sortFindings d.findings } else d)
    ∧ (printResults d a m r).2.findings.Perm d.findings
    ∧ (printResults d a m r).2.status = d.status
    ∧ (printResults d a m r).2.total_issues = d.total_issues
    ∧ (printResults d a m r).2.categories = d.categories
    ∧ (printResults d a m r).2.scan_time_seconds = d.scan_time_seconds
    ∧ (printResults d a m r).2.message = d.message
    ∧ (printResults d a m r).2.url = d.url := by
  have hsnd : (printResults d a m r).2
      = if a.json = false ∧ a.quiet = false ∧ d.status ≠ "limit_reached"
            ∧ d.status ≠ "error" ∧ d.status ≠ "clean"
          then { d with findings := sortFindings d.findings } else d := by
    by_cases hj : a.json = true
    · simp [printResults, hj]
    · have hj' : a.json = false := by simp at hj; exact hj
      by_cases hl : d.status = "limit_reached"
      · simp [printResults, hj', hl]
      · by_cases he : d.status = "error"
        · simp [printResults, hj', hl, he]
        · by_cases hq : a.quiet = true
          · simp [printResults, hj', hl, he, hq]
          · have hq' : a.quiet = false := by simp at hq; exact hq
            by_cases hc : d.status = "clean"
            · simp [printResults, hj', hl, he, hq', hc]
            · simp [printResults, hj', hl, he, hq', hc]
  refine ⟨ hsnd, ?_ ⟩
  rw [hsnd]
  split_ifs
  · exact ⟨ sortFindings_perm d.findings, rfl, rfl, rfl, rfl, rfl, rfl ⟩
  · exact ⟨ List.Perm.refl _, rfl, rfl, rfl, rfl, rfl, rfl ⟩

/-- Claim C6: in full mode with issues present, the printed findings block is
the findings sorted by severity rank descending, and the sort is stable: for
each rank value, the sorted findings filtered to that rank coincide with the
input findings filtered to that rank, so equal-rank findings (including
distinct unrecognized severities, both rank 0) keep their input order. -/
theorem printResults_sorted_stable (d : ScanResult) (a : Args) (m r : Option String)
    (hj : a.json = false) (hq : a.quiet = false) (hs : d.status = "issues_found") :
    (∃ pre post, (printResults d a m r).1
        = pre ++ (sortFindings d.findings).map findingLine ++ post)
    ∧ (sortFindings d.findings).Pairwise
        (fun f g => rankOf g.severity ≤ rankOf f.severity)
    ∧ ∀ v, (sortFindings d.findings).filter (fun f => rankOf f.severity == v)
        = d.findings.filter (fun f => rankOf f.severity == v) := by
  refine ⟨ ?_, sortFindings_sorted _, fun v => sortFindings_stable _ v ⟩
  refine ⟨ [ "" ] ++ categoryLines d.categories
      ++ [ "", "  ⚠️  " ++ toString d.total_issues ++ " issue"
            ++ pluralS d.total_issues ++ " found:", "" ],
    [ "" ] ++ msgLines m ++ [ "", detailsLine r d, "" ], ?_ ⟩
  simp [printResults, hj, hq, hs]

/-- Witness for C6 at a concrete input: two equal-rank `low` findings after a
`high` one. -/
theorem printResults_sorted_stable_witness :
    (∃ pre post,
        (printResults
          ⟨ "issues_found", 3,
            [ ⟨ "low", "a" ⟩, ⟨ "high", "b" ⟩, ⟨ "low", "c" ⟩ ], [], 0, none, "u" ⟩
          ⟨ some "u", none, false, "high", false, false, false, 60, false ⟩
          none none).1
        = pre ++ (sortFindings
            [ ⟨ "low", "a" ⟩, ⟨ "high", "b" ⟩, ⟨ "low", "c" ⟩ ]).map findingLine ++ post)
    ∧ (sortFindings
        [ ⟨ "low", "a" ⟩, ⟨ "high", "b" ⟩, ⟨ "low", "c" ⟩ ]).Pairwise
        (fun f g => rankOf g.severity ≤ rankOf f.severity)
    ∧ ∀ v, (sortFindings
          [ ⟨ "low", "a" ⟩, ⟨ "high", "b" ⟩, ⟨ "low", "c" ⟩ ]).filter
          (fun f => rankOf f.severity == v)
        = [ Finding.mk "low" "a", Finding.mk "high" "b",
            Finding.mk "low" "c" ].filter (fun f => rankOf f.severity == v) :=
  printResults_sorted_stable
    ⟨ "issues_found", 3, [ ⟨ "low", "a" ⟩, ⟨ "high", "b" ⟩, ⟨ "low", "c" ⟩ ], [], 0, none, "u" ⟩
    ⟨ some "u", none, false, "high", false, false, false, 60, false ⟩
    none none rfl rfl rfl

/-- `List.any` is invariant under permutation of the list. -/
theorem any_eq_of_perm {l l' : List Finding} (h : l.Perm l') (f : Finding → Bool) :
    l.any f = l'.any f := by
  rcases ha : l.any f with _ | _ <;> rcases hb : l'.any f with _ | _
  · rfl
  · obtain ⟨ x, hx, hf ⟩ := List.any_eq_true.mp hb
    have hc := List.any_eq_true.mpr ⟨ x, h.mem_iff.mpr hx, hf ⟩
    rw [ha] at hc
    exact hc
  · obtain ⟨ x, hx, hf ⟩ := List.any_eq_true.mp ha
    have hc := List.any_eq_true.mpr ⟨ x, h.mem_iff.mp hx, hf ⟩
    rw [hb] at hc
    exact hc.symm
  · rfl

/-- `shouldFail` only inspects `status` and the multiset of findings, so it is
unchanged by the in-place reordering the renderer performs. -/
theorem shouldFail_of_perm (d d' : ScanResult) (a : Args)
    (hst : d'.status = d.status) (hp : d'.findings.Perm d.findings) :
    shouldFail d' a = shouldFail d a := by
  simp only [shouldFail]
  rw [hst, any_eq_of_perm hp]

/-- The `data` object after rendering decides `shouldFail` exactly as the
received one (`main` calls `printResults` before `shouldFail`). -/
theorem shouldFail_printResults (d : ScanResult) (a : Args) (m r : Option String) :
    shouldFail (printResults d a m r).2 a = shouldFail d a := by
  have hfr := printResults_frame d a m r
  exact shouldFail_of_perm d (printResults d a m r).2 a hfr.2.2.1 hfr.2.1

/-- The usage text printed by `printHelp()` (src/bin/preflyt-check.js:135-159). -/
def helpLines : List String :=
  [ "",
    "  preflyt-check <url> [options]",
    "",
    "  Pre-deployment security scanner. Checks your live site for",
    "  exposed secrets, open ports, and misconfigurations.",
    "",
    "  Options:",
    "    --key, -k <key>     Pro API key for unlimited scans",
    "    --fail              Exit code 1 if issues found",
    "    --fail-on <level>   Minimum severity to fail on (high, medium, low)",
    "    --quiet, -q         Minimal output, just pass/fail",
    "    --json              Output raw JSON",
    "    --share             Create a shareable report link",
    "    --timeout <sec>     Scan timeout in seconds (default: 60)",
    "    --help, -h          Show this help",
    "",
    "  Examples:",
    "    npx preflyt-check https://mysite.com",
    "    npx preflyt-check https://mysite.com --key sk_live_xxx",
    "    npx preflyt-check https://mysite.com --fail --fail-on medium",
    "",
    "  https://preflyt.dev",
    "" ]

/-- The observable outcome of one CLI run: the `console.log` lines, the
`process.exit` code, and whether the scan / report network calls were issued. -/
structure RunResult where
  output : List String
  exitCode : Nat
  scanAttempted : Bool
  reportAttempted : Bool
deriving DecidableEq, Repr

/-- The two scanning-start lines printed when not in JSON mode
(src/bin/preflyt-check.js:433-436). -/
def scanStartLines (args : Args) (url : String) : List String :=
  if !args.json then [ "", "🔍 Preflyt scanning " ++ url ++ "..." ] else []

/-- The success branch of `main`'s try block (src/bin/preflyt-check.js:439-463):
pick a message and attempt report creation only for `clean`/`issues_found`,
swallow report failure (`reportUrl` stays null), render, then exit by
`shouldFail` on the (possibly renderer-mutated) data. -/
def mainScanned (args : Args) (url : String) (data : ScanResult)
    (reportOutcome : Except String Report) (rand : Nat) : RunResult :=
  let attempt := data.status == "clean" || data.status == "issues_found"
  let message := if attempt then some (pickMessage data rand) else none
  let reportUrl :=
    if attempt then
      match reportOutcome with
      | Except.ok rep => if rep.url ≠ "" then some rep.url else none
      | Except.error _ => none
    else none
  let pr := printResults data args message reportUrl
  ⟨ scanStartLines args url ++ pr.1,
    if shouldFail pr.2 args then 1 else 0, true, attempt ⟩

/-- `main`'s catch handler (src/bin/preflyt-check.js:464-480): print the
apology (or a compact error JSON object in JSON mode) and exit 0. -/
def mainErred (args : Args) (url msg : String) : RunResult :=
  ⟨ scanStartLines args url
      ++ (if !args.json
            then [ "", "  ⚠️  Scan could not complete: " ++ msg, "",
                   "  Deploy continues. No issues blocked.", "" ]
            else [ errorJsonLine url msg ]),
    0, true, false ⟩

/-- Embedding of `main()` (src/bin/preflyt-check.js:403-481).  Oracle
parameters stand for the Node built-ins and I/O: `urlProtocol` is the
`protocol` of `new URL(args.url)` (`none` when the constructor throws),
`scanOutcome` is the settled `doScan` promise, `reportOutcome` the settled
`createReport` promise, and `rand` the `Math.random` draw.  A JS-falsy empty
`args.url` takes the usage path like a missing one. -/
def mainRun (args : Args) (urlProtocol : Option String)
    (scanOutcome : Except String ScanResult)
    (reportOutcome : Except String Report) (rand : Nat) : RunResult :=
  if args.help then ⟨ helpLines, 0, false, false ⟩
  else
    match args.url with
    | none => ⟨ helpLines, 0, false, false ⟩
    | some url =>
      if url = "" then ⟨ helpLines, 0, false, false ⟩
      else
        match urlProtocol with
        | none =>
          ⟨ [ "", "  Invalid URL: " ++ url,
              "  URL must start with http:// or https://", "" ], 0, false, false ⟩
        | some p =>
          if p ≠ "http:" ∧ p ≠ "https:" then
            ⟨ [ "", "  URL must start with http:// or https://", "" ],
              0, false, false ⟩
          else
            match scanOutcome with
            | Except.error msg => mainErred args url msg
            | Except.ok data => mainScanned args url data reportOutcome rand

/-- The exit code of the success branch is decided by `shouldFail` on the
received data, whatever the report outcome and randomness. -/
theorem mainScanned_exit (a : Args) (url : String) (d : ScanResult)
    (rep : Except String Report) (k : Nat) :
    (mainScanned a url d rep k).exitCode = if shouldFail d a then 1 else 0 := by
  simp [mainScanned, shouldFail_printResults]

/-- The success branch always issues the scan, and issues the report call
exactly for `clean`/`issues_found`. -/
theorem mainScanned_attempts (a : Args) (url : String) (d : ScanResult)
    (rep : Except String Report) (k : Nat) :
    (mainScanned a url d rep k).scanAttempted = true
    ∧ ((mainScanned a url d rep k).reportAttempted
        = (d.status == "clean" || d.status == "issues_found")) := by
  constructor <;> rfl

/-- In full (non-JSON, non-quiet) mode outside the special-cased statuses, the
renderer prints a details line; with no report URL it shows the default
public URL. -/
theorem printResults_details_mem (d : ScanResult) (a : Args) (m : Option String)
    (hj : a.json = false) (hq : a.quiet = false)
    (hl : d.status ≠ "limit_reached") (he : d.status ≠ "error") :
    detailsLine none d ∈ (printResults d a m none).1 := by
  by_cases hc : d.status = "clean"
  · simp [printResults, hj, hq, hl, he, hc, List.mem_append]
  · simp [printResults, hj, hq, hl, he, hc, List.mem_append]

/-- Claim C2: the CLI exit code is always 0 or 1, and it is 1 exactly when a
scan was actually issued, its response deserialized successfully, and
`shouldFail` holds for the received result and flags — every error path
(invalid URL, transport failure, timeout, non-200, malformed body) exits 0. -/
theorem mainRun_exit_policy (a : Args) (u : Option String)
    (s : Except String ScanResult) (rep : Except String Report) (k : Nat) :
    ((mainRun a u s rep k).exitCode = 0 ∨ (mainRun a u s rep k).exitCode = 1)
    ∧ ((mainRun a u s rep k).exitCode = 1 ↔
        ∃ d, s = Except.ok d ∧ (mainRun a u s rep k).scanAttempted = true
          ∧ shouldFail d a = true) := by
  by_cases hh : a.help = true
  · simp [mainRun, hh]
  · have hh' : a.help = false := by simp at hh; exact hh
    rcases hu : a.url with _ | url
    · simp [mainRun, hh', hu]
    · by_cases hurl : url = ""
      · simp [mainRun, hh', hu, hurl]
      · rcases hp : u with _ | p
        · simp [mainRun, hh', hu, hurl, hp]
        · by_cases hsch : p ≠ "http:" ∧ p ≠ "https:"
          · simp [mainRun, hh', hu, hurl, hp, hsch]
          · rcases hs : s with msg | data
            · simp [mainRun, mainErred, hh', hu, hurl, hp, hsch, hs]
            · have hex := mainScanned_exit a url data rep k
              have hat := (mainScanned_attempts a url data rep k).1
              simp only [mainRun, hh', hu, hurl, hp, hsch, hs]
              simp only [Bool.false_eq_true, if_false, ne_eq, not_false_eq_true,
                hex, hat]
              rcases hsf : shouldFail data a with _ | _ <;> simp [hsf, hsch]

/-- With the usage and URL-validation gates passed, `mainRun` reduces to the
success branch. -/
theorem mainRun_reduce_ok (a : Args) (url p : String) (data : ScanResult)
    (rep : Except String Report) (k : Nat)
    (hh : a.help = false) (hu : a.url = some url) (hurl : url ≠ "")
    (hsch : ¬(p ≠ "http:" ∧ p ≠ "https:")) :
    mainRun a (some p) (Except.ok data) rep k = mainScanned a url data rep k := by
  simp [mainRun, hh, hu, hurl, hsch]

/-- Claim C3: report creation is attempted exactly when a scan result was
received with status `clean` or `issues_found`; the exit code never depends on
the report outcome; and when report creation fails in full mode the details
line falls back to the default public URL. -/
theorem mainRun_report_policy (a : Args) (u : Option String)
    (s : Except String ScanResult) (rep rep' : Except String Report) (k : Nat) :
    ((mainRun a u s rep k).reportAttempted = true ↔
        (mainRun a u s rep k).scanAttempted = true
          ∧ ∃ d, s = Except.ok d ∧ (d.status = "clean" ∨ d.status = "issues_found"))
    ∧ (mainRun a u s rep k).exitCode = (mainRun a u s rep' k).exitCode
    ∧ (∀ d e, s = Except.ok d → a.json = false → a.quiet = false →
        (mainRun a u s (Except.error e) k).scanAttempted = true →
        d.status = "clean" ∨ d.status = "issues_found" →
        ("  Details: https://preflyt.dev  " ++ timeStr d)
          ∈ (mainRun a u s (Except.error e) k).output) := by
  by_cases hh : a.help = true
  · simp [mainRun, hh]
  · have hh' : a.help = false := by simp at hh; exact hh
    rcases hu : a.url with _ | url
    · simp [mainRun, hh', hu]
    · by_cases hurl : url = ""
      · simp [mainRun, hh', hu, hurl]
      · rcases hp : u with _ | p
        · simp [mainRun, hh', hu, hurl, hp]
        · by_cases hsch : p ≠ "http:" ∧ p ≠ "https:"
          · simp [mainRun, hh', hu, hurl, hp, hsch]
          · rcases hs : s with msg | data
            · simp [mainRun, mainErred, hh', hu, hurl, hp, hsch, hs]
            · refine ⟨ ?_, ?_, ?_ ⟩
              · have hat := mainScanned_attempts a url data rep k
                rw [mainRun_reduce_ok a url p data rep k hh' hu hurl hsch,
                  hat.1, hat.2]
                simp
              · rw [mainRun_reduce_ok a url p data rep k hh' hu hurl hsch,
                  mainRun_reduce_ok a url p data rep' k hh' hu hurl hsch,
                  mainScanned_exit, mainScanned_exit]
              · intro d e hd hj hq _hsc hstat
                obtain rfl := Except.ok.inj hd
                have hl : data.status ≠ "limit_reached" := by
                  rcases hstat with h | h <;> rw [h] <;> decide
                have he2 : data.status ≠ "error" := by
                  rcases hstat with h | h <;> rw [h] <;> decide
                have hattempt : (data.status == "clean" || data.status == "issues_found") = true := by
                  rcases hstat with h | h <;> simp [h]
                rw [mainRun_reduce_ok a url p data (Except.error e) k hh' hu hurl hsch]
                have hmem := printResults_details_mem data a (some (pickMessage data k)) hj hq hl he2
                have hdl : detailsLine none data
                    = "  Details: https://preflyt.dev  " ++ timeStr data := rfl
                simp only [mainScanned, hattempt, if_pos, ite_self]
                exact List.mem_append_right _ (hdl ▸ hmem)

/-- Witness for C3 at a concrete input: scan result `clean`, report creation
failing, full mode — the details line shows the default public URL. -/
theorem mainRun_report_policy_witness :
    ("  Details: https://preflyt.dev  "
        ++ timeStr ⟨ "clean", 0, [], [], 2, none, "u" ⟩)
      ∈ (mainRun ⟨ some "https://x", none, false, "high", false, false, false, 60, false ⟩
          (some "https:") (Except.ok ⟨ "clean", 0, [], [], 2, none, "u" ⟩)
          (Except.error "boom") 0).output :=
  (mainRun_report_policy
      ⟨ some "https://x", none, false, "high", false, false, false, 60, false ⟩
      (some "https:") (Except.ok ⟨ "clean", 0, [], [], 2, none, "u" ⟩)
      (Except.error "boom") (Except.ok ⟨ "https://r" ⟩) 0).2.2
    ⟨ "clean", 0, [], [], 2, none, "u" ⟩ "boom" rfl rfl rfl (by decide) (Or.inl rfl)

/-- Counterexample to claim C8 as stated: a URL with a non-http scheme does
not get the usage text — the output is the scheme guidance message only, and
the usage headline is absent (only a missing URL prints the usage text). -/
theorem mainRun_no_usage_on_bad_scheme :
    (mainRun ⟨ some "ftp://x", none, false, "high", false, false, false, 60, false ⟩
        (some "ftp:") (Except.error "t") (Except.error "r") 0).output
      = [ "", "  URL must start with http:// or https://", "" ]
    ∧ "  preflyt-check <url> [options]" ∉
        (mainRun ⟨ some "ftp://x", none, false, "high", false, false, false, 60, false ⟩
          (some "ftp:") (Except.error "t") (Except.error "r") 0).output := by
  constructor
  · decide
  · decide

/-- Claim C8 as amended: a missing URL prints the usage text; an unparsable
URL or a non-http(s) scheme prints a guidance message (not the usage text);
in every such case no network call is made and the exit code is 0. -/
theorem mainRun_url_validation (a : Args) (u : Option String)
    (s : Except String ScanResult) (rep : Except String Report) (k : Nat) :
    (a.url = none →
      (mainRun a u s rep k).output = helpLines
        ∧ (mainRun a u s rep k).exitCode = 0
        ∧ (mainRun a u s rep k).scanAttempted = false
        ∧ (mainRun a u s rep k).reportAttempted = false)
    ∧ (∀ url, a.help = false → a.url = some url → url ≠ "" → u = none →
        (mainRun a u s rep k).output
            = [ "", "  Invalid URL: " ++ url,
                "  URL must start with http:// or https://", "" ]
          ∧ (mainRun a u s rep k).exitCode = 0
          ∧ (mainRun a u s rep k).scanAttempted = false
          ∧ (mainRun a u s rep k).reportAttempted = false)
    ∧ (∀ url p, a.help = false → a.url = some url → url ≠ "" → u = some p →
        p ≠ "http:" → p ≠ "https:" →
        (mainRun a u s rep k).output
            = [ "", "  URL must start with http:// or https://", "" ]
          ∧ (mainRun a u s rep k).exitCode = 0
          ∧ (mainRun a u s rep k).scanAttempted = false
          ∧ (mainRun a u s rep k).reportAttempted = false) := by
  refine ⟨ ?_, ?_, ?_ ⟩
  · intro h0
    by_cases hh : a.help = true
    · simp [mainRun, hh]
    · have hh' : a.help = false := by simp at hh; exact hh
      simp [mainRun, hh', h0]
  · intro url hh hu hurl hpp
    simp [mainRun, hh, hu, hurl, hpp]
  · intro url p hh hu hurl hpp hp1 hp2
    simp [mainRun, hh, hu, hurl, hpp, hp1, hp2]

/-- Witness for C8 (amended) at a concrete input: an `ftp:` scheme URL. -/
theorem mainRun_url_validation_witness :
    (mainRun ⟨ some "ftp://y", none, false, "high", false, false, false, 60, false ⟩
        (some "ftp:") (Except.error "t") (Except.error "r") 0).output
      = [ "", "  URL must start with http:// or https://", "" ]
    ∧ (mainRun ⟨ some "ftp://y", none, false, "high", false, false, false, 60, false ⟩
        (some "ftp:") (Except.error "t") (Except.error "r") 0).exitCode = 0
    ∧ (mainRun ⟨ some "ftp://y", none, false, "high", false, false, false, 60, false ⟩
        (some "ftp:") (Except.error "t") (Except.error "r") 0).scanAttempted = false
    ∧ (mainRun ⟨ some "ftp://y", none, false, "high", false, false, false, 60, false ⟩
        (some "ftp:") (Except.error "t") (Except.error "r") 0).reportAttempted = false :=
  (mainRun_url_validation
      ⟨ some "ftp://y", none, false, "high", false, false, false, 60, false ⟩
      (some "ftp:") (Except.error "t") (Except.error "r") 0).2.2
    "ftp://y" "ftp:" rfl rfl (by decide) rfl (by decide) (by decide)

/-- Claim C9: the `--share` flag is parsed but never consulted — two runs
whose parsed flags differ only in `share` have identical observable behavior:
same output, same exit code, same scan and report attempts, for every URL
parse, scan outcome, report outcome and random draw. -/
theorem mainRun_share_irrelevant (a : Args) (u : Option String)
    (s : Except String ScanResult) (rep : Except String Report) (k : Nat)
    (b b' : Bool) :
    mainRun { a with share := b } u s rep k
      = mainRun { a with share := b' } u s rep k := rfl
